import Mathlib

/-!
Verification development for the image-URL-generator repository.

The repository provides URL formatters (`file_url`, `data_url`, `web_url`),
a `generate_all_urls` aggregator, a local-server lifecycle wrapper, and an
HTML viewer renderer, in two variants: the class-based `ImageURLGenerator`
(`image_url_generator.py`) and a dependency-free module (`simple_demo.py`).

The shallow embedding below models:
  * the process environment as a `World` (current working directory plus a
    filesystem mapping paths to optional byte lists);
  * Python `str` helpers (`startswith`, `endswith`, `split`, slicing,
    `replace("'", "\\'")`) on the character-list representation;
  * the standard-library collaborators the code calls: `base64.b64encode`
    (with a decoder to state the round-trip), `mimetypes.guess_type`
    (a finite model of the extension table), `posixpath` operations
    (`abspath`, `normpath`, `join`, `basename`, `relpath`) and
    `urllib.parse.urljoin` (for `scheme://netloc/path` URLs, no
    query/fragment);
  * the two source modules themselves, translated function by function.

Bytes are `Nat` with an explicit `< 256` bound where it matters.
Fallible code returns `Except Err`.  File writes performed by
`create_html_viewer` are modelled by returning the written content
alongside the function's return value.
-/

/-! ### Python string helpers -/

/-- Model of Python `s.startswith(pre)`. -/
def pyStartswith (s pre : String) : Bool :=
  pre.data.isPrefixOf s.data

/-- Model of Python `s.endswith(suf)`. -/
def pyEndswith (s suf : String) : Bool :=
  suf.data.isSuffixOf s.data

/-- Auxiliary splitter on a separator character, accumulator style. -/
def splitChAux (sep : Char) : List Char → List Char → List (List Char)
  | [], acc => [acc.reverse]
  | c :: cs, acc =>
      if c = sep then acc.reverse :: splitChAux sep cs []
      else splitChAux sep cs (c :: acc)

/-- Model of Python `s.split(sep)` for a one-character separator:
`"a//b".split("/") = ["a", "", "b"]`, `"".split("/") = [""]`. -/
def pySplitCh (sep : Char) (s : String) : List String :=
  (splitChAux sep s.data []).map String.mk

/-- Model of Python slicing `s[:n]` (by code points). -/
def pySlice (s : String) (n : Nat) : String :=
  String.mk (s.data.take n)

/-- Model of Python `s.replace("'", "\\'")`, used by `simple_demo.py` when
interpolating copy-button values. -/
def escQuote (s : String) : String :=
  String.mk (s.data.foldr
    (fun c acc => if c = Char.ofNat 39 then '\\' :: Char.ofNat 39 :: acc else c :: acc) [])

theorem strData_append (a b : String) : (a ++ b).data = a.data ++ b.data := by
  cases a; cases b; rfl

theorem str_assoc (a b c : String) : (a ++ b) ++ c = a ++ (b ++ c) := by
  cases a; cases b; cases c
  simp [String.ext_iff, strData_append]

theorem str_eq_empty_iff (s : String) : s = "" ↔ s.data = [] := by
  cases s with
  | mk l => simp [String.ext_iff, show ("" : String).data = [] from rfl]

theorem isPrefixOf_single (c : Char) (l : List Char) :
    [c].isPrefixOf l = true ↔ ∃ t, l = c :: t := by
  cases l with
  | nil => simp [List.isPrefixOf]
  | cons a t =>
      simp only [List.isPrefixOf, List.isPrefixOf_nil_left, Bool.and_true]
      constructor
      · intro h
        have hca : c = a := by simpa using h
        exact ⟨t, by rw [hca]⟩
      · rintro ⟨t', ht⟩
        cases ht
        simp

theorem pyStartswith_slash (s : String) :
    pyStartswith s "/" = true ↔ ∃ t, s.data = '/' :: t := by
  unfold pyStartswith
  exact isPrefixOf_single '/' s.data

/-! ### base64 (model of `base64.b64encode`, plus a decoder) -/

/-- The standard base64 alphabet. -/
def b64Alphabet : List Char :=
  "ABCDEFGHIJKLMNOPQRSTUVWXYZabcdefghijklmnopqrstuvwxyz0123456789+/".data

/-- Digit-to-character table lookup ('=' is unreachable for digits < 64). -/
def b64Char (d : Nat) : Char := b64Alphabet.getD d '='

/-- Index of a character in a character list. -/
def charIdx (c : Char) : List Char → Option Nat
  | [] => none
  | a :: as => if a = c then some 0 else (charIdx c as).map (· + 1)

/-- Character-to-digit inverse lookup. -/
def b64CharVal (c : Char) : Option Nat := charIdx c b64Alphabet

/-- Standard (RFC 4648, unwrapped) base64 encoding of a byte list, three
bytes to four characters with '=' padding, as performed by
`base64.b64encode`. -/
def b64EncodeList : List Nat → List Char
  | [] => []
  | [a] => [b64Char (a / 4), b64Char (a % 4 * 16), '=', '=']
  | [a, b] => [b64Char (a / 4), b64Char (a % 4 * 16 + b / 16), b64Char (b % 16 * 4), '=']
  | a :: b :: c :: rest =>
      b64Char (a / 4) :: b64Char (a % 4 * 16 + b / 16) ::
      b64Char (b % 16 * 4 + c / 64) :: b64Char (c % 64) :: b64EncodeList rest

/-- Standard base64 decoding (model of `base64.b64decode` on well-formed
input): four characters to three bytes, padding only in the final group. -/
def b64DecodeList : List Char → Option (List Nat)
  | [] => some []
  | c1 :: c2 :: c3 :: c4 :: rest =>
      match b64CharVal c1, b64CharVal c2 with
      | some d1, some d2 =>
          if c3 = '=' then
            if c4 = '=' ∧ rest = [] then some [d1 * 4 + d2 / 16] else none
          else
            match b64CharVal c3 with
            | some d3 =>
                if c4 = '=' then
                  if rest = [] then some [d1 * 4 + d2 / 16, d2 % 16 * 16 + d3 / 4] else none
                else
                  match b64CharVal c4 with
                  | some d4 =>
                      match b64DecodeList rest with
                      | some tl =>
                          some ((d1 * 4 + d2 / 16) :: (d2 % 16 * 16 + d3 / 4) ::
                                (d3 % 4 * 64 + d4) :: tl)
                      | none => none
                  | none => none
            | none => none
      | _, _ => none
  | _ => some []

/-- `base64.b64encode(...).decode("utf-8")` as a `String`. -/
def b64encode (bytes : List Nat) : String := String.mk (b64EncodeList bytes)

/-- String-level base64 decoding. -/
def b64decode (s : String) : Option (List Nat) := b64DecodeList s.data

theorem b64CharVal_b64Char : ∀ d < 64, b64CharVal (b64Char d) = some d := by decide

theorem b64Char_ne_pad : ∀ d < 64, ¬ b64Char d = '=' := by decide

/-- Three-bytes-at-a-time induction principle matching the base64 grouping. -/
theorem threeChunk (P : List Nat → Prop) (h0 : P []) (h1 : ∀ a, P [a])
    (h2 : ∀ a b, P [a, b])
    (h3 : ∀ a b c rest, P rest → P (a :: b :: c :: rest)) : ∀ l, P l
  | [] => h0
  | [a] => h1 a
  | [a, b] => h2 a b
  | a :: b :: c :: rest => h3 a b c rest (threeChunk P h0 h1 h2 h3 rest)

theorem b64_roundtrip_list (l : List Nat) (hl : ∀ b ∈ l, b < 256) :
    b64DecodeList (b64EncodeList l) = some l := by
  induction l using threeChunk with
  | h0 => simp [b64EncodeList, b64DecodeList]
  | h1 a =>
      have ha : a < 256 := hl a (by simp)
      have e1 : b64CharVal (b64Char (a / 4)) = some (a / 4) :=
        b64CharVal_b64Char _ (by omega)
      have e2 : b64CharVal (b64Char (a % 4 * 16)) = some (a % 4 * 16) :=
        b64CharVal_b64Char _ (by omega)
      simp [b64EncodeList, b64DecodeList, e1, e2]
      omega
  | h2 a b =>
      have ha : a < 256 := hl a (by simp)
      have hb : b < 256 := hl b (by simp)
      have e1 : b64CharVal (b64Char (a / 4)) = some (a / 4) :=
        b64CharVal_b64Char _ (by omega)
      have e2 : b64CharVal (b64Char (a % 4 * 16 + b / 16)) = some (a % 4 * 16 + b / 16) :=
        b64CharVal_b64Char _ (by omega)
      have e3 : b64CharVal (b64Char (b % 16 * 4)) = some (b % 16 * 4) :=
        b64CharVal_b64Char _ (by omega)
      have n3 : ¬ b64Char (b % 16 * 4) = '=' := b64Char_ne_pad _ (by omega)
      simp [b64EncodeList, b64DecodeList, e1, e2, e3, n3]
      omega
  | h3 a b c rest ih =>
      have ha : a < 256 := hl a (by simp)
      have hb : b < 256 := hl b (by simp)
      have hc : c < 256 := hl c (by simp)
      have hrest : ∀ x ∈ rest, x < 256 := fun x hx => hl x (by simp [hx])
      have e1 : b64CharVal (b64Char (a / 4)) = some (a / 4) :=
        b64CharVal_b64Char _ (by omega)
      have e2 : b64CharVal (b64Char (a % 4 * 16 + b / 16)) = some (a % 4 * 16 + b / 16) :=
        b64CharVal_b64Char _ (by omega)
      have e3 : b64CharVal (b64Char (b % 16 * 4 + c / 64)) = some (b % 16 * 4 + c / 64) :=
        b64CharVal_b64Char _ (by omega)
      have e4 : b64CharVal (b64Char (c % 64)) = some (c % 64) :=
        b64CharVal_b64Char _ (by omega)
      have n3 : ¬ b64Char (b % 16 * 4 + c / 64) = '=' := b64Char_ne_pad _ (by omega)
      have n4 : ¬ b64Char (c % 64) = '=' := b64Char_ne_pad _ (by omega)
      simp [b64EncodeList, b64DecodeList, e1, e2, e3, e4, n3, n4, ih hrest]
      omega

theorem b64_roundtrip (bytes : List Nat) (h : ∀ b ∈ bytes, b < 256) :
    b64decode (b64encode bytes) = some bytes := by
  unfold b64decode b64encode
  exact b64_roundtrip_list bytes h

/-- Every character emitted by the encoder is in the alphabet or is '='. -/
theorem b64EncodeList_chars (l : List Nat) :
    ∀ c ∈ b64EncodeList l, c ∈ b64Alphabet ∨ c = '=' := by
  have getD_cases : ∀ d : Nat, b64Char d ∈ b64Alphabet ∨ b64Char d = '=' := by
    intro d
    unfold b64Char List.getD
    cases h : b64Alphabet.get? d with
    | none => right; rfl
    | some c => left; simpa using List.get?_mem h
  induction l using threeChunk with
  | h0 => intro c hc; cases hc
  | h1 a =>
      intro c hc
      simp only [b64EncodeList, List.mem_cons, List.not_mem_nil, or_false] at hc
      rcases hc with h | h | h | h <;> subst h
      · exact getD_cases _
      · exact getD_cases _
      · exact Or.inr rfl
      · exact Or.inr rfl
  | h2 a b =>
      intro c hc
      simp only [b64EncodeList, List.mem_cons, List.not_mem_nil, or_false] at hc
      rcases hc with h | h | h | h <;> subst h
      · exact getD_cases _
      · exact getD_cases _
      · exact getD_cases _
      · exact Or.inr rfl
  | h3 a b c rest ih =>
      intro x hx
      simp only [b64EncodeList, List.mem_cons] at hx
      rcases hx with h | h | h | h | h
      · subst h; exact getD_cases _
      · subst h; exact getD_cases _
      · subst h; exact getD_cases _
      · subst h; exact getD_cases _
      · exact ih x h

/-- The encoded payload contains no newline (no line wrapping). -/
theorem b64encode_no_newline (bytes : List Nat) :
    ¬ '\n' ∈ (b64encode bytes).data := by
  intro h
  rcases b64EncodeList_chars bytes '\n' h with h' | h'
  · revert h'; decide
  · cases h'

/-- The encoded payload contains no single-quote character. -/
theorem b64encode_no_quote (bytes : List Nat) :
    ¬ Char.ofNat 39 ∈ (b64encode bytes).data := by
  intro h
  rcases b64EncodeList_chars bytes _ h with h' | h'
  · revert h'; decide
  · cases h'

/-! ### posixpath model (`os.path` on POSIX) -/

/-- Model of `os.path.isabs`. -/
def isabs (s : String) : Bool := pyStartswith s "/"

/-- Model of the two-argument `posixpath.join(a, b)`. -/
def pyJoin (a b : String) : String :=
  if isabs b then b
  else if a = "" ∨ pyEndswith a "/" then a ++ b
  else a ++ "/" ++ b

/-- One step of the `posixpath.normpath` component loop.  `abs` records
whether the path had initial slashes; a `".."` that cannot be cancelled is
kept on relative paths and dropped at the root of absolute ones. -/
def normStep (abs : Bool) (acc : List String) (comp : String) : List String :=
  if comp = "" ∨ comp = "." then acc
  else if comp ≠ ".." ∨ (abs = false ∧ acc = []) ∨ (acc ≠ [] ∧ acc.getLast? = some "..") then
    acc ++ [comp]
  else acc.dropLast

/-- Model of `posixpath.normpath`: collapse duplicate slashes, drop `"."`,
resolve `".."`, preserving one leading slash (or exactly two, per POSIX). -/
def normpath (path : String) : String :=
  if path = "" then "." else
  let slashes : Nat :=
    if pyStartswith path "//" ∧ ¬ pyStartswith path "///" then 2
    else if pyStartswith path "/" then 1 else 0
  let comps := pySplitCh '/' path
  let newComps := comps.foldl (normStep (slashes ≠ 0)) []
  let res := String.mk (List.replicate slashes '/' ++ (String.intercalate "/" newComps).data)
  if res = "" then "." else res

/-- Model of `posixpath.abspath`, with the process working directory passed
explicitly: join onto the cwd when relative, then normalise. -/
def abspath (cwd path : String) : String :=
  if isabs path then normpath path else normpath (pyJoin cwd path)

/-- Model of `posixpath.basename`: everything after the last slash. -/
def basename (p : String) : String :=
  String.mk ((p.data.reverse.takeWhile (fun c => c ≠ '/')).reverse)

/-- Elementwise common-prefix length of two component lists, as computed by
`os.path.commonprefix` on the split path lists inside `relpath`. -/
def commonPrefixLen : List String → List String → Nat
  | a :: as, b :: bs => if a = b then commonPrefixLen as bs + 1 else 0
  | _, _ => 0

/-- Model of `posixpath.relpath(path, start)` with the working directory
explicit: both arguments are made absolute, split into nonempty components,
and the result climbs with `".."` from `start` to the common prefix. -/
def relpath (cwd path start : String) : String :=
  let pl := (pySplitCh '/' (abspath cwd path)).filter (fun s => s ≠ "")
  let sl := (pySplitCh '/' (abspath cwd start)).filter (fun s => s ≠ "")
  let i := commonPrefixLen sl pl
  let rel := List.replicate (sl.length - i) ".." ++ pl.drop i
  if rel = [] then "." else String.intercalate "/" rel

theorem normpath_abs (path : String) (h : pyStartswith path "/" = true) :
    isabs (normpath path) = true := by
  obtain ⟨t, ht⟩ := (pyStartswith_slash path).mp h
  have hne : path ≠ "" := by
    intro he
    rw [he] at ht
    exact absurd ht (by simp [show ("" : String).data = [] from rfl])
  unfold normpath
  rw [if_neg hne]
  simp only []
  set slashes : Nat :=
    if pyStartswith path "//" ∧ ¬ pyStartswith path "///" then 2
    else if pyStartswith path "/" then 1 else 0 with hsl
  have hslpos : slashes = 1 ∨ slashes = 2 := by
    rw [hsl]
    by_cases h2 : pyStartswith path "//" ∧ ¬ pyStartswith path "///"
    · rw [if_pos h2]; right; rfl
    · rw [if_neg h2, if_pos h]; left; rfl
  set rest := (String.intercalate "/" ((pySplitCh '/' path).foldl (normStep (slashes ≠ 0)) [])).data with hrest
  have hdata : ∃ u, (String.mk (List.replicate slashes '/' ++ rest)).data = '/' :: u := by
    rcases hslpos with h1 | h1 <;> rw [h1] <;> exact ⟨_, rfl⟩
  obtain ⟨u, hu⟩ := hdata
  have hres : String.mk (List.replicate slashes '/' ++ rest) ≠ "" := by
    intro he
    rw [(str_eq_empty_iff _).mp he] at hu
    cases hu
  rw [if_neg hres]
  exact (pyStartswith_slash _).mpr ⟨u, hu⟩

theorem pyJoin_abs (a b : String) (h : isabs a = true) : isabs (pyJoin a b) = true := by
  obtain ⟨t, ht⟩ := (pyStartswith_slash a).mp h
  unfold pyJoin
  by_cases hb : isabs b
  · rw [if_pos hb]; exact hb
  · rw [if_neg hb]
    by_cases he : a = "" ∨ pyEndswith a "/"
    · rw [if_pos he]
      exact (pyStartswith_slash _).mpr ⟨t ++ b.data, by rw [strData_append, ht]; rfl⟩
    · rw [if_neg he]
      refine (pyStartswith_slash _).mpr ⟨t ++ "/".data ++ b.data, ?_⟩
      rw [strData_append, strData_append, ht]
      simp

theorem abspath_abs (cwd path : String) (h : isabs cwd = true) :
    isabs (abspath cwd path) = true := by
  unfold abspath
  by_cases hp : isabs path
  · rw [if_pos hp]
    exact normpath_abs path hp
  · rw [if_neg hp]
    exact normpath_abs _ (pyJoin_abs cwd path h)

/-! ### mimetypes model -/

/-- Extension of a path as computed by `posixpath.splitext`: the part of the
basename from its last dot on, empty when the basename has no dot or only
leading dots. -/
def extOf (p : String) : String :=
  let b := (basename p).data
  let pre := b.reverse.takeWhile (fun c => c ≠ '.')
  if pre.length = b.length then ""
  else if (b.take (b.length - pre.length - 1)).all (fun c => c = '.') then ""
  else String.mk ('.' :: pre.reverse)

/-- Finite model of the stdlib `mimetypes` extension table, restricted to
common entries; extensions outside the table map to `none`, as
`mimetypes.guess_type` returns `None` for unknown extensions. -/
def mimeTable : List (String × String) :=
  [(".jpg", "image/jpeg"), (".jpeg", "image/jpeg"), (".png", "image/png"),
   (".gif", "image/gif"), (".svg", "image/svg+xml"), (".bmp", "image/bmp"),
   (".webp", "image/webp"), (".ico", "image/vnd.microsoft.icon"),
   (".tif", "image/tiff"), (".tiff", "image/tiff"),
   (".bin", "application/octet-stream"), (".txt", "text/plain"),
   (".html", "text/html"), (".htm", "text/html"), (".pdf", "application/pdf"),
   (".json", "application/json"), (".css", "text/css"), (".mp4", "video/mp4")]

/-- ASCII lowercase of one character, as Python lowercases extensions. -/
def charLower (c : Char) : Char :=
  if 65 ≤ c.toNat ∧ c.toNat ≤ 90 then Char.ofNat (c.toNat + 32) else c

/-- ASCII lowercase of a string. -/
def pyLower (s : String) : String := String.mk (s.data.map charLower)

/-- Model of `mimetypes.guess_type` (first component): look the lowercased
extension up in the table. -/
def guess_type (p : String) : Option String :=
  (mimeTable.find? (fun e => e.1 == pyLower (extOf p))).map (fun e => e.2)

/-! ### urljoin model (`urllib.parse.urljoin`) -/

/-- Characters allowed in a URL scheme after the leading letter. -/
def schemeChar (c : Char) : Bool :=
  c.isAlpha ∨ c.isDigit ∨ c = '+' ∨ c = '-' ∨ c = '.'

/-- Split a leading `scheme:` off a URL, if present (leading letter followed
by scheme characters and a colon), as `urlsplit` detects schemes. -/
def urlScheme (u : String) : Option (String × String) :=
  let pre := u.data.takeWhile schemeChar
  match u.data.dropWhile schemeChar with
  | ':' :: r =>
      match pre with
      | [] => none
      | c :: _ => if c.isAlpha then some (String.mk pre, String.mk r) else none
  | _ => none

/-- Parse a base URL of the form `scheme://netloc/path` (or `scheme:path`)
into scheme, network location and path. -/
def parseBase (base : String) : Option (String × String × String) :=
  match urlScheme base with
  | none => none
  | some (sch, rest) =>
      if pyStartswith rest "//" then
        let r2 := rest.data.drop 2
        some (sch, String.mk (r2.takeWhile (fun c => c ≠ '/')),
              String.mk (r2.dropWhile (fun c => c ≠ '/')))
      else some (sch, "", rest)

/-- The `segments[1:-1] = filter(None, segments[1:-1])` step of CPython's
`urljoin`: drop empty segments everywhere except at the two ends. -/
def filterMiddle (l : List String) : List String :=
  match l with
  | [] => []
  | [x] => [x]
  | x :: rest => x :: ((rest.dropLast.filter (fun s => s ≠ "")) ++ rest.getLast?.toList)

/-- The dot-segment resolution loop of CPython's `urljoin`: `".."` pops
(ignoring underflow), `"."` is dropped, a trailing `"."`/`".."` leaves a
trailing empty segment. -/
def resolveSegments (segments : List String) : List String :=
  let r := segments.foldl
    (fun acc seg =>
      if seg = ".." then acc.dropLast else if seg = "." then acc else acc ++ [seg]) []
  if segments.getLast? = some "." ∨ segments.getLast? = some ".." then r ++ [""] else r

/-- Model of `urllib.parse.urljoin(base, url)` for `scheme://netloc/path`
bases without query or fragment: a URL carrying its own scheme wins, a
`//`-URL keeps only the base scheme, a rooted URL keeps scheme and netloc,
and a relative URL is merged onto the base path's directory with empty
middle segments dropped and dot segments resolved (the final slash
insertion mirrors `urlunsplit` with a nonempty netloc). -/
def urljoin (base url : String) : String :=
  if base = "" then url
  else if url = "" then base
  else match parseBase base with
  | none => url
  | some (sch, netloc, bpath) =>
      if (urlScheme url).isSome then url
      else if pyStartswith url "//" then sch ++ ":" ++ url
      else
        let segments :=
          if pyStartswith url "/" then pySplitCh '/' url
          else
            let baseParts := pySplitCh '/' bpath
            let baseParts :=
              if baseParts.getLast? = some "" then baseParts else baseParts.dropLast
            filterMiddle (baseParts ++ pySplitCh '/' url)
        let p := String.intercalate "/" (resolveSegments segments)
        let p := if p = "" then "/" else p
        let p := if pyStartswith p "/" then p else "/" ++ p
        sch ++ "://" ++ netloc ++ p

/-! ### Process environment, errors, URL set -/

/-- The ambient process state the formatters read: the current working
directory and the filesystem, mapping a path to its byte content when the
path exists. -/
structure World where
  cwd : String
  fs : String → Option (List Nat)

/-- Errors surfaced by the repository: `FileNotFoundError` with its
message. -/
inductive Err where
  | fileNotFound (msg : String)
deriving DecidableEq

deriving instance DecidableEq for Except

/-- The mapping returned by `generate_all_urls`: exactly the three fixed
keys. -/
structure UrlSet where
  file_url : String
  data_url : String
  web_url : String
deriving DecidableEq

/-- Observable side effects of the server lifecycle methods. -/
inductive Effect where
  | shutdown (handle : Nat)
  | printed (msg : String)
deriving DecidableEq

/-! ### HTML template literal chunks (canonical variant `ivc*`, no-dependency variant `svc*`), generated from the source f-string templates, split at the interpolation points, at the `url-text` display markers, at the `copyToClipboard` markers and at the display ellipsis -/

/-- Literal template chunk 0 of the source HTML template. -/
def ivc0 : String :=
  "<!DOCTYPE html>\n<html lang=\"en\">\n<head>\n    <meta charset=\"UTF-8\">\n    <meta name=\"viewport\" content=\"width=device-width, initial-scale=1.0\">\n    <title>Image Viewer - "

/-- Literal template chunk 1 of the source HTML template. -/
def ivc1 : String :=
  "</title>\n    <style>\n        body \x7b\n            font-family: Arial, sans-serif;\n            max-width: 1200px;\n            margin: 0 auto;\n            padding: 20px;\n            background-color: #f5f5f5;\n        \x7d\n        .container \x7b\n            background: white;\n            border-radius: 8px;\n            padding: 30px;\n            box-shadow: 0 2px 10px rgba(0,0,0,0.1);\n        \x7d\n        .image-display \x7b\n            text-align: center;\n            margin: 30px 0;\n        \x7d\n        .image-display img \x7b\n            max-width: 100%;\n            max-height: 500px;\n            border-radius: 8px;\n            box-shadow: 0 4px 8px rgba(0,0,0,0.1);\n        \x7d\n        .url-section \x7b\n            margin: 20px 0;\n            padding: 15px;\n            background: #f8f9fa;\n            border-radius: 5px;\n            border-left: 4px solid #007bff;\n        \x7d\n        .url-type \x7b\n            font-weight: bold;\n            color: #007bff;\n            margin-bottom: 8px;\n        \x7d\n        .url-text \x7b\n            font-family: monospace;\n            background: #e9ecef;\n            padding: 8px;\n            border-radius: 3px;\n            word-break: break-all;\n            font-size: 12px;\n        \x7d\n        .copy-btn \x7b\n            background: #007bff;\n            color: white;\n            border: none;\n            padding: 5px 10px;\n            border-radius: 3px;\n            cursor: pointer;\n            font-size: 12px;\n            margin-top: 5px;\n        \x7d\n        .copy-btn:hover \x7b\n            background: #0056b3;\n        \x7d\n    </style>\n</head>\n<body>\n    <div class=\"container\">\n        <h1>Image Viewer: "

/-- Literal template chunk 2 of the source HTML template. -/
def ivc2 : String :=
  "</h1>\n        \n        <div class=\"image-display\">\n            <img src=\""

/-- Literal template chunk 3 of the source HTML template. -/
def ivc3 : String :=
  "\" alt=\""

/-- Literal template chunk 4 of the source HTML template. -/
def ivc4 : String :=
  "\">\n        </div>\n        \n        <div class=\"url-section\">\n            <div class=\"url-type\">File URL (Local filesystem access)</div>\n            "

/-- Literal template chunk 5 of the source HTML template. -/
def ivc5 : String :=
  "\n            <button class=\"copy-btn\" onclick=\""

/-- Literal template chunk 6 of the source HTML template. -/
def ivc6 : String :=
  "Copy URL</button>\n        </div>\n        \n        <div class=\"url-section\">\n            <div class=\"url-type\">Web URL (HTTP server access)</div>\n            "

/-- Literal template chunk 7 of the source HTML template. -/
def ivc7 : String :=
  "\n            <button class=\"copy-btn\" onclick=\""

/-- Literal template chunk 8 of the source HTML template. -/
def ivc8 : String :=
  "Copy URL</button>\n        </div>\n        \n        <div class=\"url-section\">\n            <div class=\"url-type\">Data URL (Base64 encoded - works anywhere)</div>\n            "

/-- Literal template chunk 9 of the source HTML template. -/
def ivc9 : String :=
  "\n            <button class=\"copy-btn\" onclick=\""

/-- Literal template chunk 10 of the source HTML template. -/
def ivc10 : String :=
  "Copy Full Data URL</button>\n        </div>\n    </div>\n    \n    <script>\n        function copyToClipboard(text) \x7b\n            navigator.clipboard.writeText(text).then(function() \x7b\n                alert(\x27URL copied to clipboard!\x27);\n            \x7d, function(err) \x7b\n                console.error(\x27Could not copy text: \x27, err);\n            \x7d);\n        \x7d\n    </script>\n</body>\n</html>"

/-- Literal template chunk 0 of the source HTML template. -/
def svc0 : String :=
  "<!DOCTYPE html>\n<html lang=\"en\">\n<head>\n    <meta charset=\"UTF-8\">\n    <meta name=\"viewport\" content=\"width=device-width, initial-scale=1.0\">\n    <title>Simple Image Viewer - "

/-- Literal template chunk 1 of the source HTML template. -/
def svc1 : String :=
  "</title>\n    <style>\n        body \x7b\n            font-family: \x27Segoe UI\x27, Tahoma, Geneva, Verdana, sans-serif;\n            max-width: 1200px;\n            margin: 0 auto;\n            padding: 20px;\n            background: linear-gradient(135deg, #667eea 0%, #764ba2 100%);\n            min-height: 100vh;\n        \x7d\n        .container \x7b\n            background: white;\n            border-radius: 15px;\n            padding: 30px;\n            box-shadow: 0 10px 30px rgba(0,0,0,0.3);\n        \x7d\n        .header \x7b\n            text-align: center;\n            margin-bottom: 30px;\n        \x7d\n        .image-display \x7b\n            text-align: center;\n            margin: 30px 0;\n            padding: 20px;\n            background: #f8f9fa;\n            border-radius: 10px;\n        \x7d\n        .image-display img \x7b\n            max-width: 100%;\n            max-height: 400px;\n            border-radius: 10px;\n            box-shadow: 0 8px 16px rgba(0,0,0,0.2);\n        \x7d\n        .url-section \x7b\n            margin: 20px 0;\n            padding: 20px;\n            background: linear-gradient(135deg, #f5f7fa 0%, #c3cfe2 100%);\n            border-radius: 10px;\n            border-left: 5px solid #007bff;\n        \x7d\n        .url-type \x7b\n            font-weight: bold;\n            color: #007bff;\n            margin-bottom: 10px;\n            font-size: 16px;\n        \x7d\n        .url-description \x7b\n            color: #666;\n            font-size: 14px;\n            margin-bottom: 10px;\n        \x7d\n        .url-text \x7b\n            font-family: \x27Courier New\x27, monospace;\n            background: #fff;\n            padding: 12px;\n            border-radius: 5px;\n            word-break: break-all;\n            font-size: 12px;\n            border: 1px solid #e9ecef;\n            max-height: 100px;\n            overflow-y: auto;\n        \x7d\n        .copy-btn \x7b\n            background: linear-gradient(135deg, #007bff 0%, #0056b3 100%);\n            color: white;\n            border: none;\n            padding: 8px 15px;\n            border-radius: 5px;\n            cursor: pointer;\n            font-size: 12px;\n            margin-top: 10px;\n        \x7d\n        .copy-btn:hover \x7b\n            transform: translateY(-1px);\n            box-shadow: 0 3px 10px rgba(0,123,255,0.3);\n        \x7d\n        .success \x7b\n            color: #28a745;\n            font-size: 12px;\n            margin-top: 5px;\n        \x7d\n    </style>\n</head>\n<body>\n    <div class=\"container\">\n        <div class=\"header\">\n            <h1>🖼️ Simple Image Viewer</h1>\n            <p><strong>"

/-- Literal template chunk 2 of the source HTML template. -/
def svc2 : String :=
  "</strong></p>\n        </div>\n        \n        <div class=\"image-display\">\n            <img src=\""

/-- Literal template chunk 3 of the source HTML template. -/
def svc3 : String :=
  "\" alt=\""

/-- Literal template chunk 4 of the source HTML template. -/
def svc4 : String :=
  "\">\n        </div>\n        \n        <div class=\"url-section\">\n            <div class=\"url-type\">📁 File URL</div>\n            <div class=\"url-description\">Direct filesystem access (works locally)</div>\n            "

/-- Literal template chunk 5 of the source HTML template. -/
def svc5 : String :=
  "\n            <button class=\"copy-btn\" onclick=\""

/-- Literal template chunk 6 of the source HTML template. -/
def svc6 : String :=
  "Copy URL</button>\n        </div>\n        \n        <div class=\"url-section\">\n            <div class=\"url-type\">🌐 Web URL</div>\n            <div class=\"url-description\">HTTP server access (shareable link)</div>\n            "

/-- Literal template chunk 7 of the source HTML template. -/
def svc7 : String :=
  "\n            <button class=\"copy-btn\" onclick=\""

/-- Literal template chunk 8 of the source HTML template. -/
def svc8 : String :=
  "Copy URL</button>\n        </div>\n        \n        <div class=\"url-section\">\n            <div class=\"url-type\">📊 Data URL</div>\n            <div class=\"url-description\">Base64 encoded (embedded, works anywhere)</div>\n            "

/-- Literal template chunk 9 of the source HTML template. -/
def svc9 : String :=
  "\n            <button class=\"copy-btn\" onclick=\""

/-- Literal template chunk 10 of the source HTML template. -/
def svc10 : String :=
  "Copy Full Data URL</button>\n        </div>\n    </div>\n    \n    <script>\n        async function copyToClipboard(text) \x7b\n            try \x7b\n                await navigator.clipboard.writeText(text);\n                alert(\x27URL copied to clipboard!\x27);\n            \x7d catch (err) \x7b\n                console.error(\x27Could not copy text: \x27, err);\n                // Fallback for older browsers\n                const textArea = document.createElement(\x27textarea\x27);\n                textArea.value = text;\n                document.body.appendChild(textArea);\n                textArea.select();\n                document.execCommand(\x27copy\x27);\n                document.body.removeChild(textArea);\n                alert(\x27URL copied to clipboard!\x27);\n            \x7d\n        \x7d\n    </script>\n</body>\n</html>"

/-- Opening of a URL display block: `<div class="url-text">`. -/
def utOpen : String := "<div class=\"url-text\">"

/-- Closing of a URL display block. -/
def utClose : String := "</div>"

/-- Opening of a copy-button action: `copyToClipboard('`. -/
def qOpen : String := "copyToClipboard('"

/-- Closing of a copy-button action: `')">`. -/
def qClose : String := "')\">"

/-! ### `image_url_generator.py` (class-based variant) -/

/-- Instance state of the `ImageURLGenerator` class: `base_url`, the server
handle and the server thread (handles modelled as numeric identifiers). -/
structure ImageURLGenerator where
  base_url : String
  server : Option Nat
  server_thread : Option Nat
deriving DecidableEq

/-- `ImageURLGenerator.__init__` with the default `base_url`. -/
def ImageURLGenerator.init : ImageURLGenerator :=
  { base_url := "http://localhost:8000", server := none, server_thread := none }

/-- `ImageURLGenerator.file_url`: `f"file://{os.path.abspath(image_path)}"`. -/
def ImageURLGenerator.file_url (_self : ImageURLGenerator) (w : World)
    (image_path : String) : String :=
  "file://" ++ abspath w.cwd image_path

/-- `ImageURLGenerator.data_url`: raise `FileNotFoundError` when the path
does not exist; otherwise guess the MIME type, falling back to `image/jpeg`
when the guess is `None` or does not start with `image/`, and return
`f"data:{mime_type};base64,{encoded_string}"`. -/
def ImageURLGenerator.data_url (_self : ImageURLGenerator) (w : World)
    (image_path : String) : Except Err String :=
  match w.fs image_path with
  | none => .error (.fileNotFound ("Image not found: " ++ image_path))
  | some bytes =>
      let mime_type :=
        match guess_type image_path with
        | none => "image/jpeg"
        | some t => if pyStartswith t "image/" then t else "image/jpeg"
      .ok ("data:" ++ mime_type ++ ";base64," ++ b64encode bytes)

/-- `ImageURLGenerator.web_url`: relative path is `os.path.relpath(...)`
when `relative_to_webroot` is supplied and truthy (a nonempty string), else
`os.path.basename(...)`; the result is
`urljoin(self.base_url + "/", rel_path)`. -/
def ImageURLGenerator.web_url (self : ImageURLGenerator) (w : World)
    (image_path : String) (relative_to_webroot : Option String) : String :=
  let rel_path :=
    match relative_to_webroot with
    | some root =>
        if root = "" then basename image_path else relpath w.cwd image_path root
    | none => basename image_path
  urljoin (self.base_url ++ "/") rel_path

/-- `ImageURLGenerator.stop_local_server`: when a server handle is present,
shut the listener down, clear the handle and print; otherwise do nothing. -/
def ImageURLGenerator.stop_local_server (self : ImageURLGenerator) :
    ImageURLGenerator × List Effect :=
  match self.server with
  | some h =>
      ({ self with server := none }, [Effect.shutdown h, Effect.printed "Local server stopped"])
  | none => (self, [])

/-- `ImageURLGenerator.generate_all_urls`: build the dict with the three
formatter results; `data_url` may raise, aborting the whole call. -/
def ImageURLGenerator.generate_all_urls (self : ImageURLGenerator) (w : World)
    (image_path : String) : Except Err UrlSet :=
  let f := self.file_url w image_path
  match self.data_url w image_path with
  | .error e => .error e
  | .ok d => .ok { file_url := f, data_url := d, web_url := self.web_url w image_path none }

/-- The HTML document built by `ImageURLGenerator.create_html_viewer` from
the base name and the three URLs, as the source f-string interpolates them
(the data-URL display text is sliced to 100 characters, everything else is
inserted verbatim). -/
def ImageURLGenerator.viewerHtml (name fileU webU dataU : String) : String :=
  ivc0 ++ name ++ ivc1 ++ name ++ ivc2 ++ dataU ++ ivc3 ++ name ++ ivc4 ++
  utOpen ++ fileU ++ utClose ++ ivc5 ++ qOpen ++ fileU ++ qClose ++ ivc6 ++
  utOpen ++ webU ++ utClose ++ ivc7 ++ qOpen ++ webU ++ qClose ++ ivc8 ++
  utOpen ++ pySlice dataU 100 ++ "..." ++ utClose ++ ivc9 ++
  qOpen ++ dataU ++ qClose ++ ivc10

/-- `ImageURLGenerator.create_html_viewer`: generate the URL set (failing
when the file does not exist), render the template, write it to
`output_file` and return `os.path.abspath(output_file)`.  The write is
modelled by returning the written content next to the return value. -/
def ImageURLGenerator.create_html_viewer (self : ImageURLGenerator) (w : World)
    (image_path output_file : String) : Except Err (String × String) :=
  match self.generate_all_urls w image_path with
  | .error e => .error e
  | .ok urls =>
      .ok (ImageURLGenerator.viewerHtml (basename image_path)
             urls.file_url urls.web_url urls.data_url,
           abspath w.cwd output_file)

/-- State-passing form of the `file_url` method: Python methods that only
read `self` return the instance unchanged. -/
def ImageURLGenerator.file_urlM (self : ImageURLGenerator) (w : World)
    (image_path : String) : String × ImageURLGenerator :=
  (self.file_url w image_path, self)

/-- State-passing form of the `data_url` method. -/
def ImageURLGenerator.data_urlM (self : ImageURLGenerator) (w : World)
    (image_path : String) : Except Err String × ImageURLGenerator :=
  (self.data_url w image_path, self)

/-- State-passing form of the `web_url` method. -/
def ImageURLGenerator.web_urlM (self : ImageURLGenerator) (w : World)
    (image_path : String) (relative_to_webroot : Option String) :
    String × ImageURLGenerator :=
  (self.web_url w image_path relative_to_webroot, self)

/-- State-passing form of the `generate_all_urls` method. -/
def ImageURLGenerator.generate_all_urlsM (self : ImageURLGenerator) (w : World)
    (image_path : String) : Except Err UrlSet × ImageURLGenerator :=
  (self.generate_all_urls w image_path, self)

/-! ### `simple_demo.py` (no-dependency variant) -/

namespace SimpleDemo

/-- `simple_demo.file_url`, identical to the class-based formatter. -/
def file_url (w : World) (image_path : String) : String :=
  "file://" ++ abspath w.cwd image_path

/-- `simple_demo.data_url`: raise `FileNotFoundError` when the path does
not exist; when the MIME guess is `None`, fall back to `image/svg+xml` for
paths ending in `.svg` and `application/octet-stream` otherwise. -/
def data_url (w : World) (image_path : String) : Except Err String :=
  match w.fs image_path with
  | none => .error (.fileNotFound ("File not found: " ++ image_path))
  | some bytes =>
      let mime_type :=
        match guess_type image_path with
        | some t => t
        | none =>
            if pyEndswith image_path ".svg" then "image/svg+xml"
            else "application/octet-stream"
      .ok ("data:" ++ mime_type ++ ";base64," ++ b64encode bytes)

/-- `simple_demo.web_url`: always the base name joined onto
`base_url + "/"`. -/
def web_url (image_path : String) (base_url : String) : String :=
  urljoin (base_url ++ "/") (basename image_path)

/-- The HTML document built by `simple_demo.create_html_viewer`; unlike the
canonical variant, the file-URL and data-URL copy values are passed through
`.replace("'", "\\'")`. -/
def viewerHtml (name fileU webU dataU : String) : String :=
  svc0 ++ name ++ svc1 ++ name ++ svc2 ++ dataU ++ svc3 ++ name ++ svc4 ++
  utOpen ++ fileU ++ utClose ++ svc5 ++ qOpen ++ escQuote fileU ++ qClose ++ svc6 ++
  utOpen ++ webU ++ utClose ++ svc7 ++ qOpen ++ webU ++ qClose ++ svc8 ++
  utOpen ++ pySlice dataU 100 ++ "..." ++ utClose ++ svc9 ++
  qOpen ++ escQuote dataU ++ qClose ++ svc10

/-- `simple_demo.create_html_viewer`: compute the three URLs (the default
`base_url` of `web_url` applies), render, write, return the output file's
absolute path.  The write is modelled by returning the content. -/
def create_html_viewer (w : World) (image_path output_file : String) :
    Except Err (String × String) :=
  let file_url_val := file_url w image_path
  match data_url w image_path with
  | .error e => .error e
  | .ok data_url_val =>
      let web_url_val := web_url image_path "http://localhost:8000"
      .ok (viewerHtml (basename image_path) file_url_val web_url_val data_url_val,
           abspath w.cwd output_file)

end SimpleDemo

/-! ### Helper lemmas -/

theorem strMk_data (s : String) : String.mk s.data = s := by
  cases s; rfl

theorem isPrefixOf_append_self (l t : List Char) : l.isPrefixOf (l ++ t) = true := by
  induction l with
  | nil => simp [List.isPrefixOf]
  | cons c cs ih => simp [List.isPrefixOf, ih]

theorem take_isPrefixOf (l : List Char) (n : Nat) : (l.take n).isPrefixOf l = true := by
  induction l generalizing n with
  | nil => cases n <;> rfl
  | cons c cs ih =>
      cases n with
      | zero => rfl
      | succ m => simp [List.take_succ_cons, List.isPrefixOf, ih]

theorem takeWhile_append_stop (p : Char → Bool) (x : Char) (l1 l2 : List Char)
    (h : ∀ c ∈ l1, p c = true) (hx : p x = false) :
    (l1 ++ x :: l2).takeWhile p = l1 := by
  induction l1 with
  | nil => simp [List.takeWhile, hx]
  | cons c cs ih =>
      have hc : p c = true := h c (by simp)
      have ih2 := ih (fun d hd => h d (by simp [hd]))
      simp [List.takeWhile, hc, ih2]

theorem escQuote_eq_self (s : String) (h : ¬ Char.ofNat 39 ∈ s.data) : escQuote s = s := by
  unfold escQuote
  cases s with
  | mk l =>
      simp only at h ⊢
      congr 1
      induction l with
      | nil => rfl
      | cons c cs ih =>
          have hc : ¬ c = Char.ofNat 39 := fun he => h (by simp [he])
          simp only [List.foldr_cons, if_neg hc, List.cons.injEq, true_and]
          exact ih (fun hm => h (by simp [hm]))

theorem mimeTable_no_quote : ∀ pr ∈ mimeTable, ¬ Char.ofNat 39 ∈ pr.2.data := by decide

theorem guess_type_no_quote (p t : String) (h : guess_type p = some t) :
    ¬ Char.ofNat 39 ∈ t.data := by
  unfold guess_type at h
  cases hf : mimeTable.find? (fun e => e.1 == pyLower (extOf p)) with
  | none => rw [hf] at h; cases h
  | some pr =>
      rw [hf] at h
      injection h with h'
      subst h'
      exact mimeTable_no_quote pr (List.mem_of_find?_eq_some hf)

theorem data_url_string_no_quote (mime : String) (bytes : List Nat)
    (hm : ¬ Char.ofNat 39 ∈ mime.data) :
    ¬ Char.ofNat 39 ∈ ("data:" ++ mime ++ ";base64," ++ b64encode bytes).data := by
  intro hq
  rw [strData_append, strData_append, strData_append] at hq
  rcases List.mem_append.mp hq with hL | hEnc
  · rcases List.mem_append.mp hL with hL2 | hSemi
    · rcases List.mem_append.mp hL2 with hData | hMime
      · revert hData; decide
      · exact hm hMime
    · revert hSemi; decide
  · exact b64encode_no_quote bytes hEnc

theorem simple_data_url_no_quote (w : World) (p : String) (bytes : List Nat)
    (hex : w.fs p = some bytes) (du : String)
    (h : SimpleDemo.data_url w p = .ok du) : ¬ Char.ofNat 39 ∈ du.data := by
  unfold SimpleDemo.data_url at h
  rw [hex] at h
  cases hg : guess_type p with
  | some t =>
      rw [hg] at h
      simp only [] at h
      injection h with h'
      subst h'
      exact data_url_string_no_quote t bytes (guess_type_no_quote p t hg)
  | none =>
      rw [hg] at h
      simp only [] at h
      by_cases hsvg : pyEndswith p ".svg"
      · rw [if_pos hsvg] at h
        injection h with h'
        subst h'
        exact data_url_string_no_quote "image/svg+xml" bytes (by decide)
      · rw [if_neg hsvg] at h
        injection h with h'
        subst h'
        exact data_url_string_no_quote "application/octet-stream" bytes (by decide)

/-! ### Concrete test fixtures -/

/-- World holding the ten-byte file `a.bin` with content `0x00..0x09`. -/
def wBin : World :=
  ⟨"/", fun p => if p = "a.bin" then some [0, 1, 2, 3, 4, 5, 6, 7, 8, 9] else none⟩

/-- World holding a file with an extension outside the MIME table. -/
def wUnknown : World := ⟨"/", fun p => if p = "logo.xyz" then some [7] else none⟩

/-- World holding a three-byte `t.jpg`, whose data URL is shorter than 100
characters. -/
def wTiny : World := ⟨"/w", fun p => if p = "t.jpg" then some [1, 2, 3] else none⟩

/-- World holding a one-byte file whose name contains a single quote. -/
def wQuote : World := ⟨"/w", fun p => if p = "a\x27b.jpg" then some [1] else none⟩

/-- A generator instance with a running server handle. -/
def genRun : ImageURLGenerator := ⟨"http://localhost:8000", some 5, some 1⟩

/-- A generator instance with no running server. -/
def genStopped : ImageURLGenerator := ⟨"http://localhost:8000", none, none⟩

/-! ### Claims -/

/-- C1: for every existing file, both variants of `data_url` return a string
of the form `data:<mime>;base64,<payload>` where base64-decoding the payload
yields exactly the original bytes, with no line wrapping. -/
theorem c1_data_url_base64_roundtrip (g : ImageURLGenerator) (w : World)
    (p : String) (bytes : List Nat) (hexists : w.fs p = some bytes)
    (hbytes : ∀ b ∈ bytes, b < 256) :
    (∃ mime payload, g.data_url w p = .ok ("data:" ++ mime ++ ";base64," ++ payload) ∧
        b64decode payload = some bytes ∧ ¬ '\n' ∈ payload.data) ∧
    (∃ mime payload,
        SimpleDemo.data_url w p = .ok ("data:" ++ mime ++ ";base64," ++ payload) ∧
        b64decode payload = some bytes ∧ ¬ '\n' ∈ payload.data) := by
  constructor
  · refine ⟨(match guess_type p with
             | none => "image/jpeg"
             | some t => if pyStartswith t "image/" then t else "image/jpeg"),
        b64encode bytes, ?_, b64_roundtrip bytes hbytes, b64encode_no_newline bytes⟩
    unfold ImageURLGenerator.data_url
    rw [hexists]
  · refine ⟨(match guess_type p with
             | some t => t
             | none =>
                 if pyEndswith p ".svg" then "image/svg+xml"
                 else "application/octet-stream"),
        b64encode bytes, ?_, b64_roundtrip bytes hbytes, b64encode_no_newline bytes⟩
    unfold SimpleDemo.data_url
    rw [hexists]

/-- Witness for C1 at the concrete ten-byte file `a.bin`. -/
theorem c1_witness :
    (∃ mime payload,
        ImageURLGenerator.init.data_url wBin "a.bin" =
          .ok ("data:" ++ mime ++ ";base64," ++ payload) ∧
        b64decode payload = some [0, 1, 2, 3, 4, 5, 6, 7, 8, 9] ∧
        ¬ '\n' ∈ payload.data) ∧
    (∃ mime payload,
        SimpleDemo.data_url wBin "a.bin" = .ok ("data:" ++ mime ++ ";base64," ++ payload) ∧
        b64decode payload = some [0, 1, 2, 3, 4, 5, 6, 7, 8, 9] ∧
        ¬ '\n' ∈ payload.data) :=
  c1_data_url_base64_roundtrip ImageURLGenerator.init wBin "a.bin"
    [0, 1, 2, 3, 4, 5, 6, 7, 8, 9] (by decide) (by decide)

/-- C2: `generate_all_urls` fails (with the `FileNotFoundError` carrying the
`Image not found` message) exactly when the file does not exist; on success
the returned set holds the three formatter results. -/
theorem c2_generate_all_urls (g : ImageURLGenerator) (w : World) (p : String) :
    ((∃ e, g.generate_all_urls w p = .error e) ↔ w.fs p = none) ∧
    (w.fs p = none →
      g.generate_all_urls w p = .error (.fileNotFound ("Image not found: " ++ p))) ∧
    (∀ u, g.generate_all_urls w p = .ok u →
      u.file_url = g.file_url w p ∧ Except.ok u.data_url = g.data_url w p ∧
      u.web_url = g.web_url w p none) := by
  cases h : w.fs p with
  | none =>
      have hg : g.generate_all_urls w p =
          .error (.fileNotFound ("Image not found: " ++ p)) := by
        unfold ImageURLGenerator.generate_all_urls ImageURLGenerator.data_url
        rw [h]
      refine ⟨⟨fun _ => rfl, fun _ => ⟨_, hg⟩⟩, fun _ => hg, fun u hu => ?_⟩
      rw [hg] at hu
      cases hu
  | some bytes =>
      have hd : ∃ d, g.data_url w p = .ok d := by
        unfold ImageURLGenerator.data_url
        rw [h]
        exact ⟨_, rfl⟩
      obtain ⟨d, hd⟩ := hd
      have hg : g.generate_all_urls w p =
          .ok ⟨g.file_url w p, d, g.web_url w p none⟩ := by
        unfold ImageURLGenerator.generate_all_urls
        rw [hd]
      constructor
      · constructor
        · rintro ⟨e, he⟩
          rw [hg] at he
          cases he
        · intro hn
          exact Option.noConfusion hn
      constructor
      · intro hn
        exact Option.noConfusion hn
      · intro u hu
        rw [hg] at hu
        cases hu
        exact ⟨rfl, hd.symm, rfl⟩

/-- Witness for C2: a missing path fails with the documented error, and the
existing `a.bin` succeeds. -/
theorem c2_witness :
    ImageURLGenerator.init.generate_all_urls wBin "missing.png" =
      .error (.fileNotFound "Image not found: missing.png") ∧
    ∃ u, ImageURLGenerator.init.generate_all_urls wBin "a.bin" = .ok u ∧
      u.file_url = ImageURLGenerator.init.file_url wBin "a.bin" := by
  constructor
  · exact (c2_generate_all_urls ImageURLGenerator.init wBin "missing.png").2.1 (by decide)
  · cases hu : ImageURLGenerator.init.generate_all_urls wBin "a.bin" with
    | error e =>
        have := (c2_generate_all_urls ImageURLGenerator.init wBin "a.bin").1.mp ⟨e, hu⟩
        exact absurd this (by decide)
    | ok u =>
        exact ⟨u, rfl,
          ((c2_generate_all_urls ImageURLGenerator.init wBin "a.bin").2.2 u hu).1⟩

/-- C3: for every existing file, the MIME type embedded by the class-based
`data_url` is the looked-up type when the lookup succeeds with an `image/`
type and `image/jpeg` otherwise, while the no-dependency variant keeps any
looked-up type and on lookup failure uses `image/svg+xml` exactly for paths
ending in `.svg`, else `application/octet-stream`. -/
theorem c3_mime_fallback (g : ImageURLGenerator) (w : World) (p : String)
    (bytes : List Nat) (hexists : w.fs p = some bytes) :
    g.data_url w p = .ok ("data:" ++
        (match guess_type p with
         | none => "image/jpeg"
         | some t => if pyStartswith t "image/" then t else "image/jpeg") ++
        ";base64," ++ b64encode bytes) ∧
    SimpleDemo.data_url w p = .ok ("data:" ++
        (match guess_type p with
         | some t => t
         | none =>
             if pyEndswith p ".svg" then "image/svg+xml"
             else "application/octet-stream") ++
        ";base64," ++ b64encode bytes) := by
  constructor
  · unfold ImageURLGenerator.data_url
    rw [hexists]
  · unfold SimpleDemo.data_url
    rw [hexists]

/-- Witness for C3: `logo.xyz` has no table entry, so the canonical variant
falls back to `image/jpeg` and the no-dependency variant to
`application/octet-stream`. -/
theorem c3_witness :
    ImageURLGenerator.init.data_url wUnknown "logo.xyz" =
      .ok "data:image/jpeg;base64,Bw==" ∧
    SimpleDemo.data_url wUnknown "logo.xyz" =
      .ok "data:application/octet-stream;base64,Bw==" := by
  have h := c3_mime_fallback ImageURLGenerator.init wUnknown "logo.xyz" [7] (by decide)
  constructor
  · rw [h.1]; decide
  · rw [h.2]; decide

/-- C8: `stop_local_server` with no live server is a no-op producing no
effects; with a live server it shuts the listener down and clears only the
handle, leaving `base_url` and the thread untouched. -/
theorem c8_stop_local_server (g : ImageURLGenerator) :
    (g.server = none → g.stop_local_server = (g, [])) ∧
    (∀ h, g.server = some h →
      (g.stop_local_server).1 = { g with server := none } ∧
      (g.stop_local_server).1.base_url = g.base_url ∧
      (g.stop_local_server).1.server_thread = g.server_thread ∧
      Effect.shutdown h ∈ (g.stop_local_server).2) := by
  obtain ⟨bu, sv, th⟩ := g
  cases sv with
  | none =>
      refine ⟨fun _ => rfl, fun h hh => ?_⟩
      cases hh
  | some h0 =>
      refine ⟨fun hn => ?_, fun h hh => ?_⟩
      · cases hn
      · injection hh with he
        subst he
        exact ⟨rfl, rfl, rfl, by simp [ImageURLGenerator.stop_local_server]⟩

/-- Witness for C8 at a stopped and at a running instance. -/
theorem c8_witness :
    genStopped.stop_local_server = (genStopped, []) ∧
    (genRun.stop_local_server).1 = { genRun with server := none } ∧
    Effect.shutdown 5 ∈ (genRun.stop_local_server).2 := by
  have h1 := (c8_stop_local_server genStopped).1 (by decide)
  have h2 := (c8_stop_local_server genRun).2 5 (by decide)
  exact ⟨h1, h2.1, h2.2.2.2⟩

/-- C9: on the ten-byte file `a.bin` with content `0x00..0x09`, the
no-dependency `data_url` returns `data:application/octet-stream;base64,`
followed by the base64 encoding of those bytes. -/
theorem c9_simple_data_url_bin :
    SimpleDemo.data_url wBin "a.bin" =
      .ok ("data:application/octet-stream;base64," ++
           b64encode [0, 1, 2, 3, 4, 5, 6, 7, 8, 9]) ∧
    b64encode [0, 1, 2, 3, 4, 5, 6, 7, 8, 9] = "AAECAwQFBgcICQ==" := by
  exact ⟨by decide, by decide⟩

/-- C10: every formatter method of `ImageURLGenerator`, in state-passing
form, returns the instance unchanged — `base_url`, server handle and server
thread included — for every input, failing calls included. -/
theorem c10_formatters_preserve_state (g : ImageURLGenerator) (w : World)
    (p : String) (r : Option String) :
    (g.file_urlM w p).2 = g ∧ (g.data_urlM w p).2 = g ∧
    (g.web_urlM w p r).2 = g ∧ (g.generate_all_urlsM w p).2 = g :=
  ⟨rfl, rfl, rfl, rfl⟩

/-- C6: `file_url` (both variants) is total, returns `file://` followed by
the absolute resolution of the input against the current working directory,
starts with `file://`, yields an absolute path whenever the working
directory is absolute, and depends on nothing but the input path and the
working directory in force at resolution time. -/
theorem c6_file_url_absolute (g : ImageURLGenerator) (w : World) (p : String) :
    g.file_url w p = "file://" ++ abspath w.cwd p ∧
    SimpleDemo.file_url w p = "file://" ++ abspath w.cwd p ∧
    pyStartswith (g.file_url w p) "file://" = true ∧
    (isabs w.cwd = true → isabs (abspath w.cwd p) = true) ∧
    (∀ w' : World, w'.cwd = w.cwd →
      g.file_url w' p = g.file_url w p ∧
      SimpleDemo.file_url w' p = SimpleDemo.file_url w p) := by
  refine ⟨rfl, rfl, ?_, abspath_abs w.cwd p, ?_⟩
  · unfold ImageURLGenerator.file_url pyStartswith
    rw [strData_append]
    exact isPrefixOf_append_self _ _
  · intro w' hw
    unfold ImageURLGenerator.file_url SimpleDemo.file_url
    rw [hw]
    exact ⟨rfl, rfl⟩

/-- Witness for C6 at a relative path under an absolute working directory. -/
theorem c6_witness :
    isabs (abspath "/c" "x.png") = true ∧
    ImageURLGenerator.init.file_url ⟨"/c", fun _ => none⟩ "x.png" = "file:///c/x.png" := by
  have h := c6_file_url_absolute ImageURLGenerator.init ⟨"/c", fun _ => none⟩ "x.png"
  refine ⟨h.2.2.2.1 (by decide), ?_⟩
  rw [h.1]
  decide

/-- C5 counterexample: with `relative_to_webroot` supplied as the empty
string, the code returns the base-name join, not the join with the path
relative to the empty-string webroot (Python truthiness treats `""` as
omitted), so the claim fails as stated for `D = ""`. -/
theorem c5_counterexample :
    ImageURLGenerator.init.web_url ⟨"/c", fun _ => none⟩ "/a/b.jpg" (some "") ≠
      urljoin (ImageURLGenerator.init.base_url ++ "/") (relpath "/c" "/a/b.jpg" "") := by
  decide

/-- C5 (amended): for a nonempty webroot `d`, `web_url` joins the base URL
(with a trailing slash appended) with the path relative to `d`; when the
webroot is omitted — or empty, which the code treats as omitted — it joins
with the base name only; the no-dependency variant always uses the base
name; the result ignores the filesystem, and `basename` discards any
directory component. -/
theorem c5_web_url_join (g : ImageURLGenerator) (w : World) (p d b : String) :
    (d ≠ "" → g.web_url w p (some d) = urljoin (g.base_url ++ "/") (relpath w.cwd p d)) ∧
    g.web_url w p none = urljoin (g.base_url ++ "/") (basename p) ∧
    g.web_url w p (some "") = urljoin (g.base_url ++ "/") (basename p) ∧
    SimpleDemo.web_url p b = urljoin (b ++ "/") (basename p) ∧
    (∀ w' : World, w'.cwd = w.cwd → g.web_url w' p (some d) = g.web_url w p (some d)) ∧
    (∀ dir n : String, ¬ '/' ∈ n.data →
      basename (String.mk (dir.data ++ '/' :: n.data)) = n) := by
  refine ⟨?_, rfl, ?_, rfl, ?_, ?_⟩
  · intro hd
    show urljoin (g.base_url ++ "/")
        (if d = "" then basename p else relpath w.cwd p d) =
      urljoin (g.base_url ++ "/") (relpath w.cwd p d)
    rw [if_neg hd]
  · rfl
  · intro w' hw
    unfold ImageURLGenerator.web_url
    rw [hw]
  · intro dir n hn
    unfold basename
    have hrev : (dir.data ++ '/' :: n.data).reverse = n.data.reverse ++ '/' :: dir.data.reverse := by
      simp
    rw [hrev, takeWhile_append_stop _ '/' _ _ ?side ?stop, List.reverse_reverse, strMk_data]
    case side =>
      intro c hc
      have hcn : c ∈ n.data := List.mem_reverse.mp hc
      have : ¬ c = '/' := fun he => hn (he ▸ hcn)
      simpa using this
    case stop => simp

/-- Witness for C5: a file under `/srv` relative to webroot `/srv`, and the
same file with the webroot omitted. -/
theorem c5_witness :
    ImageURLGenerator.init.web_url ⟨"/c", fun _ => none⟩ "/srv/img/p.png" (some "/srv") =
      "http://localhost:8000/img/p.png" ∧
    ImageURLGenerator.init.web_url ⟨"/c", fun _ => none⟩ "/srv/img/p.png" none =
      "http://localhost:8000/p.png" := by
  have h := c5_web_url_join ImageURLGenerator.init ⟨"/c", fun _ => none⟩
    "/srv/img/p.png" "/srv" "http://x"
  constructor
  · rw [h.1 (by decide)]
    decide
  · rw [h.2.1]
    decide

/-- The amended truncation contract of the HTML viewer: the data-URL display
text is the 100-character slice followed by an ellipsis and is a prefix of
the full data URL — strict whenever the URL exceeds 100 characters — while
the copy action receives the full URL (in the no-dependency variant, the
quote-escaped copy value coincides with the full URL because data URLs
contain no quote), and the file/web URL display texts are the full URLs in
both rendered documents. -/
def viewerTruncationProp (g : ImageURLGenerator) (w : World) (p ofile : String) : Prop :=
  ∃ du sdu doc ret sdoc sret,
    g.data_url w p = .ok du ∧
    SimpleDemo.data_url w p = .ok sdu ∧
    g.create_html_viewer w p ofile = .ok (doc, ret) ∧
    SimpleDemo.create_html_viewer w p ofile = .ok (sdoc, sret) ∧
    (∃ a b, doc = a ++ utOpen ++ pySlice du 100 ++ "..." ++ utClose ++ ivc9 ++
        qOpen ++ du ++ qClose ++ b) ∧
    (∃ a b, doc = a ++ utOpen ++ g.file_url w p ++ utClose ++ b) ∧
    (∃ a b, doc = a ++ utOpen ++ g.web_url w p none ++ utClose ++ b) ∧
    (pySlice du 100).data.isPrefixOf du.data = true ∧
    (100 < du.data.length → (pySlice du 100).data.length < du.data.length) ∧
    escQuote sdu = sdu ∧
    (∃ a b, sdoc = a ++ utOpen ++ SimpleDemo.file_url w p ++ utClose ++ b) ∧
    (∃ a b, sdoc = a ++ utOpen ++ SimpleDemo.web_url p "http://localhost:8000" ++
        utClose ++ b) ∧
    (∃ a b, sdoc = a ++ utOpen ++ pySlice sdu 100 ++ "..." ++ utClose ++ svc9 ++
        qOpen ++ sdu ++ qClose ++ b)

/-- C4 counterexample: for the three-byte `t.jpg` the data URL has 27
characters, so the 100-character display slice equals the whole data URL and
is not a strict prefix of it, refuting the claim as stated. -/
theorem c4_counterexample :
    ImageURLGenerator.init.data_url wTiny "t.jpg" = .ok "data:image/jpeg;base64,AQID" ∧
    pySlice "data:image/jpeg;base64,AQID" 100 = "data:image/jpeg;base64,AQID" ∧
    ¬ (pySlice "data:image/jpeg;base64,AQID" 100).data.length <
        ("data:image/jpeg;base64,AQID" : String).data.length :=
  ⟨by decide, by decide, by decide⟩

/-- C4 (amended): for every existing file, the rendered documents satisfy
the amended truncation contract `viewerTruncationProp`. -/
theorem c4_viewer_truncation (g : ImageURLGenerator) (w : World)
    (p ofile : String) (bytes : List Nat) (hexists : w.fs p = some bytes) :
    viewerTruncationProp g w p ofile := by
  have hdu : ∃ du, g.data_url w p = .ok du := by
    unfold ImageURLGenerator.data_url
    rw [hexists]
    exact ⟨_, rfl⟩
  obtain ⟨du, hdu⟩ := hdu
  have hsdu : ∃ sdu, SimpleDemo.data_url w p = .ok sdu := by
    unfold SimpleDemo.data_url
    rw [hexists]
    exact ⟨_, rfl⟩
  obtain ⟨sdu, hsdu⟩ := hsdu
  have hsq : escQuote sdu = sdu :=
    escQuote_eq_self sdu (simple_data_url_no_quote w p bytes hexists sdu hsdu)
  have hg : g.generate_all_urls w p =
      .ok ⟨g.file_url w p, du, g.web_url w p none⟩ := by
    unfold ImageURLGenerator.generate_all_urls
    rw [hdu]
  have hdoc : g.create_html_viewer w p ofile =
      .ok (ImageURLGenerator.viewerHtml (basename p) (g.file_url w p)
             (g.web_url w p none) du,
           abspath w.cwd ofile) := by
    unfold ImageURLGenerator.create_html_viewer
    rw [hg]
  have hsdoc : SimpleDemo.create_html_viewer w p ofile =
      .ok (SimpleDemo.viewerHtml (basename p) (SimpleDemo.file_url w p)
             (SimpleDemo.web_url p "http://localhost:8000") sdu,
           abspath w.cwd ofile) := by
    unfold SimpleDemo.create_html_viewer
    rw [hsdu]
  refine ⟨du, sdu, _, _, _, _, hdu, hsdu, hdoc, hsdoc, ?_, ?_, ?_, ?_, ?_, hsq,
    ?_, ?_, ?_⟩
  · refine ⟨ivc0 ++ basename p ++ ivc1 ++ basename p ++ ivc2 ++ du ++ ivc3 ++
        basename p ++ ivc4 ++ utOpen ++ g.file_url w p ++ utClose ++ ivc5 ++
        qOpen ++ g.file_url w p ++ qClose ++ ivc6 ++ utOpen ++ g.web_url w p none ++
        utClose ++ ivc7 ++ qOpen ++ g.web_url w p none ++ qClose ++ ivc8,
      ivc10, ?_⟩
    simp only [ImageURLGenerator.viewerHtml, str_assoc]
  · refine ⟨ivc0 ++ basename p ++ ivc1 ++ basename p ++ ivc2 ++ du ++ ivc3 ++
        basename p ++ ivc4,
      ivc5 ++ qOpen ++ g.file_url w p ++ qClose ++ ivc6 ++ utOpen ++
        g.web_url w p none ++ utClose ++ ivc7 ++ qOpen ++ g.web_url w p none ++
        qClose ++ ivc8 ++ utOpen ++ pySlice du 100 ++ "..." ++ utClose ++ ivc9 ++
        qOpen ++ du ++ qClose ++ ivc10, ?_⟩
    simp only [ImageURLGenerator.viewerHtml, str_assoc]
  · refine ⟨ivc0 ++ basename p ++ ivc1 ++ basename p ++ ivc2 ++ du ++ ivc3 ++
        basename p ++ ivc4 ++ utOpen ++ g.file_url w p ++ utClose ++ ivc5 ++
        qOpen ++ g.file_url w p ++ qClose ++ ivc6,
      ivc7 ++ qOpen ++ g.web_url w p none ++ qClose ++ ivc8 ++ utOpen ++
        pySlice du 100 ++ "..." ++ utClose ++ ivc9 ++ qOpen ++ du ++ qClose ++
        ivc10, ?_⟩
    simp only [ImageURLGenerator.viewerHtml, str_assoc]
  · exact take_isPrefixOf du.data 100
  · intro hlen
    show (du.data.take 100).length < du.data.length
    rw [List.length_take]
    omega
  · refine ⟨svc0 ++ basename p ++ svc1 ++ basename p ++ svc2 ++ sdu ++ svc3 ++
        basename p ++ svc4,
      svc5 ++ qOpen ++ escQuote (SimpleDemo.file_url w p) ++ qClose ++ svc6 ++
        utOpen ++ SimpleDemo.web_url p "http://localhost:8000" ++ utClose ++ svc7 ++
        qOpen ++ SimpleDemo.web_url p "http://localhost:8000" ++ qClose ++ svc8 ++
        utOpen ++ pySlice sdu 100 ++ "..." ++ utClose ++ svc9 ++ qOpen ++
        escQuote sdu ++ qClose ++ svc10, ?_⟩
    simp only [SimpleDemo.viewerHtml, str_assoc]
  · refine ⟨svc0 ++ basename p ++ svc1 ++ basename p ++ svc2 ++ sdu ++ svc3 ++
        basename p ++ svc4 ++ utOpen ++ SimpleDemo.file_url w p ++ utClose ++ svc5 ++
        qOpen ++ escQuote (SimpleDemo.file_url w p) ++ qClose ++ svc6,
      svc7 ++ qOpen ++ SimpleDemo.web_url p "http://localhost:8000" ++ qClose ++
        svc8 ++ utOpen ++ pySlice sdu 100 ++ "..." ++ utClose ++ svc9 ++ qOpen ++
        escQuote sdu ++ qClose ++ svc10, ?_⟩
    simp only [SimpleDemo.viewerHtml, str_assoc]
  · refine ⟨svc0 ++ basename p ++ svc1 ++ basename p ++ svc2 ++ sdu ++ svc3 ++
        basename p ++ svc4 ++ utOpen ++ SimpleDemo.file_url w p ++ utClose ++ svc5 ++
        qOpen ++ escQuote (SimpleDemo.file_url w p) ++ qClose ++ svc6 ++ utOpen ++
        SimpleDemo.web_url p "http://localhost:8000" ++ utClose ++ svc7 ++ qOpen ++
        SimpleDemo.web_url p "http://localhost:8000" ++ qClose ++ svc8,
      svc10, ?_⟩
    simp only [SimpleDemo.viewerHtml, hsq, str_assoc]

/-- Witness for C4 at the concrete three-byte `t.jpg`. -/
theorem c4_witness : viewerTruncationProp ImageURLGenerator.init wTiny "t.jpg" "o.html" :=
  c4_viewer_truncation ImageURLGenerator.init wTiny "t.jpg" "o.html" [1, 2, 3] (by decide)

/-- C7: evaluation at a file name containing a single quote.  The canonical
viewer interpolates the raw file URL — which contains a quote — directly
between the `copyToClipboard('` and `')">` delimiters of the onclick
attribute, with no escaping applied (the quote-escaping transformation would
have changed the value), so the quote terminates the script string literal
early.  This contradicts the claimed escaping. -/
theorem c7_unescaped_interpolation :
    ImageURLGenerator.init.file_url wQuote "a\x27b.jpg" = "file:///w/a\x27b.jpg" ∧
    Char.ofNat 39 ∈ ("file:///w/a\x27b.jpg" : String).data ∧
    escQuote "file:///w/a\x27b.jpg" ≠ "file:///w/a\x27b.jpg" ∧
    (∃ a b doc ret,
      ImageURLGenerator.init.create_html_viewer wQuote "a\x27b.jpg" "o.html" =
        .ok (doc, ret) ∧
      doc = a ++ qOpen ++ "file:///w/a\x27b.jpg" ++ qClose ++ b) := by
  refine ⟨by decide, by decide, by decide, ?_⟩
  have hd : ImageURLGenerator.init.data_url wQuote "a\x27b.jpg" =
      .ok "data:image/jpeg;base64,AQ==" := by decide
  have hf : ImageURLGenerator.init.file_url wQuote "a\x27b.jpg" =
      "file:///w/a\x27b.jpg" := by decide
  have hw : ImageURLGenerator.init.web_url wQuote "a\x27b.jpg" none =
      "http://localhost:8000/a\x27b.jpg" := by decide
  have hb : basename "a\x27b.jpg" = "a\x27b.jpg" := by decide
  have hg2 : ImageURLGenerator.init.generate_all_urls wQuote "a\x27b.jpg" =
      .ok ⟨"file:///w/a\x27b.jpg", "data:image/jpeg;base64,AQ==",
           "http://localhost:8000/a\x27b.jpg"⟩ := by
    unfold ImageURLGenerator.generate_all_urls
    rw [hd, hf, hw]
  have hdoc : ImageURLGenerator.init.create_html_viewer wQuote "a\x27b.jpg" "o.html" =
      .ok (ImageURLGenerator.viewerHtml "a\x27b.jpg" "file:///w/a\x27b.jpg"
             "http://localhost:8000/a\x27b.jpg" "data:image/jpeg;base64,AQ==",
           "/w/o.html") := by
    unfold ImageURLGenerator.create_html_viewer
    rw [hg2, hb]
    rfl
  refine ⟨ivc0 ++ "a\x27b.jpg" ++ ivc1 ++ "a\x27b.jpg" ++ ivc2 ++
      "data:image/jpeg;base64,AQ==" ++ ivc3 ++ "a\x27b.jpg" ++ ivc4 ++ utOpen ++
      "file:///w/a\x27b.jpg" ++ utClose ++ ivc5,
    ivc6 ++ utOpen ++ "http://localhost:8000/a\x27b.jpg" ++ utClose ++ ivc7 ++
      qOpen ++ "http://localhost:8000/a\x27b.jpg" ++ qClose ++ ivc8 ++ utOpen ++
      pySlice "data:image/jpeg;base64,AQ==" 100 ++ "..." ++ utClose ++ ivc9 ++
      qOpen ++ "data:image/jpeg;base64,AQ==" ++ qClose ++ ivc10,
    _, _, hdoc, ?_⟩
  simp only [ImageURLGenerator.viewerHtml, str_assoc]
